import Mathlib

/-!
Verification of the attendance-rule engine of `src/app.py` (Flask app
"Absensi WDA") against its natural-language specification.

Shallow embedding conventions:
* Instants are modelled at one-second resolution as wall-clock values in the
  organization time zone (Asia/Jakarta, fixed UTC+7, no DST).  A calendar
  date is abstracted to a linear day index (`dayIdx`, identifying the date
  uniquely) together with its day-of-month projection (`dayOfMonth`), which
  is the only calendar attribute the export code reads.
* A `datetime` value stored in the database is either time-zone aware
  (tagged Asia/Jakarta, as written by the handlers) or naive (the tag was
  stripped by the store); both carry the same wall-clock fields, exactly as
  `pytz.localize` preserves the wall clock while fixing the interpretation.
* Handlers return a `(response, new state)` pair; error responses leave the
  state untouched, mirroring the early `return` before any `db.session`
  mutation in the source.
* Geo coordinates are floats in the source but are opaque to every rule in
  the claims; they are carried as `Option Int` placeholders.
-/

/-- A calendar date: `dayIdx` is a linear index that identifies the date
uniquely (date equality in the source is equality of full dates), and
`dayOfMonth` is its day-of-month (1..31), the projection `df['date'].dt.day`
used by the export code. -/
structure Date where
  dayIdx : Int
  dayOfMonth : Nat
deriving DecidableEq, Repr

/-- A wall-clock instant in the Asia/Jakarta zone: a date plus a
time-of-day in seconds (0..86399). -/
structure DateTime where
  date : Date
  tod : Nat
deriving DecidableEq, Repr

/-- Total seconds on the linear wall-clock timeline (Jakarta wall clock).
Differences of aware Jakarta instants equal differences of these values,
since the zone has a fixed offset. -/
def DateTime.wallSeconds (t : DateTime) : Int :=
  t.date.dayIdx * 86400 + (t.tod : Int)

/-- The absolute UTC reading of a Jakarta-aware wall clock (UTC+7 = 25200
seconds ahead). -/
def DateTime.utcSeconds (t : DateTime) : Int :=
  t.wallSeconds - 25200

/-- A stored `datetime`: either carrying the Asia/Jakarta tag or naive
(tag stripped by the backing store). Both keep the wall-clock fields. -/
inductive StoredDT where
  | aware (dt : DateTime)
  | naive (dt : DateTime)
deriving DecidableEq, Repr

/-- The wall-clock fields of a stored datetime, whatever its tag. -/
def StoredDT.wall : StoredDT → DateTime
  | .aware dt => dt
  | .naive dt => dt

/-- `ensure_timezone` (src/app.py lines 122-128): a naive value is localized
to Asia/Jakarta — the wall clock is kept and only the interpretation is
fixed (never read as UTC); an aware value is returned unchanged. -/
def ensure_timezone : Option StoredDT → Option StoredDT
  | none => none
  | some (.naive dt) => some (.aware dt)
  | some (.aware dt) => some (.aware dt)

/-- `ensure_timezone` on a value that is known to be present
(the source applies it to `attendance.check_in_time`, which every record
has once created). -/
def ensure_timezone1 : StoredDT → StoredDT
  | .naive dt => .aware dt
  | .aware dt => .aware dt

/-- Python `int()` applied to an exact quotient: truncation toward zero. -/
def truncDiv (a b : Int) : Int :=
  Int.tdiv a b

/-- One shift's rule from `SHIFT_RULES` (src/app.py lines 35-39): start,
scheduled end and official departure times-of-day (stored in the source as
"HH:MM" strings, parsed on use), plus the report codes. -/
structure ShiftRule where
  start_h : Nat
  start_m : Nat
  sched_end_h : Nat
  sched_end_m : Nat
  ops_pulang_h : Nat
  ops_pulang_m : Nat
  code_staff : String
  code_spv : String
deriving DecidableEq, Repr

/-- The "Pagi" entry of `SHIFT_RULES`: 10:00-16:00, departure 16:00. -/
def pagiRule : ShiftRule :=
  { start_h := 10, start_m := 0, sched_end_h := 16, sched_end_m := 0,
    ops_pulang_h := 16, ops_pulang_m := 0,
    code_staff := "P", code_spv := "1" }

/-- The "Siang" entry of `SHIFT_RULES`: 12:00-20:00, departure 20:00. -/
def siangRule : ShiftRule :=
  { start_h := 12, start_m := 0, sched_end_h := 20, sched_end_m := 0,
    ops_pulang_h := 20, ops_pulang_m := 0,
    code_staff := "S", code_spv := "2" }

/-- The "Sore" entry of `SHIFT_RULES`: 16:00-22:00, departure 22:00. -/
def soreRule : ShiftRule :=
  { start_h := 16, start_m := 0, sched_end_h := 22, sched_end_m := 0,
    ops_pulang_h := 22, ops_pulang_m := 0,
    code_staff := "M", code_spv := "2" }

/-- `SHIFT_RULES` (src/app.py lines 35-39). -/
def SHIFT_RULES : List (String × ShiftRule) :=
  [("Pagi", pagiRule), ("Siang", siangRule), ("Sore", soreRule)]

/-- Python's `if not shift_type or shift_type not in SHIFT_RULES` test:
`none`, the empty string and unknown names all yield no rule. -/
def shiftLookup : Option String → Option ShiftRule
  | none => none
  | some s =>
      if s = "" then none
      else (SHIFT_RULES.find? (fun p => p.1 == s)).map (fun p => p.2)

/-- The shift's start combined with a calendar date (the
`check_in_time.replace(hour=..., minute=..., second=0, microsecond=0)` of
the source). -/
def shiftStartOn (d : Date) (rule : ShiftRule) : DateTime :=
  { date := d, tod := rule.start_h * 3600 + rule.start_m * 60 }

/-- The shift's official departure combined with a calendar date. -/
def opsPulangOn (d : Date) (rule : ShiftRule) : DateTime :=
  { date := d, tod := rule.ops_pulang_h * 3600 + rule.ops_pulang_m * 60 }

/-- `calculate_status` (src/app.py lines 104-120): unknown shift means
"Hadir" (Present); otherwise "Terlambat" (Late) exactly when the check-in
instant is strictly after shift start plus the 15-minute grace period. -/
def calculate_status (check_in_time : DateTime) (shift_type : Option String) : String :=
  match shiftLookup shift_type with
  | none => "Hadir"
  | some rule =>
      if (shiftStartOn check_in_time.date rule).wallSeconds + 900 < check_in_time.wallSeconds
      then "Terlambat"
      else "Hadir"

/-- `is_overtime_enabled` (src/app.py lines 98-102): true when the server's
Jakarta wall clock is at or past 16:00 of the current day (the cutoff is
`now.replace(hour=16, minute=0, second=0, microsecond=0)`). -/
def is_overtime_enabled (now : DateTime) : Bool :=
  let cutoff : DateTime := { now with tod := 16 * 3600 }
  decide (cutoff.wallSeconds ≤ now.wallSeconds)

/-- Two-digit zero-padded rendering (Python `f"{n:02}"` for 0 ≤ n < 100,
plain digits beyond). -/
def pad2 (n : Nat) : String :=
  if n < 10 then "0" ++ toString n else toString n

/-- `strftime("%H:%M")` on a wall-clock instant. -/
def fmtHM (t : DateTime) : String :=
  pad2 (t.tod / 3600) ++ ":" ++ pad2 ((t.tod % 3600) / 60)

/-- `strftime("%H:%M:%S")` on a wall-clock instant. -/
def fmtHMS (t : DateTime) : String :=
  fmtHM t ++ ":" ++ pad2 (t.tod % 60)

/-- A row of the `users` table (src/app.py lines 43-49). The model has no
branch column; roles are the strings "STAFF", "SPV", "ADMIN". The password
hash belongs to the excluded auth layer and is omitted. -/
structure User where
  id : Nat
  username : String
  role : String
  full_name : String
deriving DecidableEq, Repr

/-- A row of the `attendance` table (src/app.py lines 57-81).
`check_in_time` is always set at creation (the only creator is
`api_check_in`), so it is not optional here; `check_out_time` is optional
until check-out. -/
structure Attendance where
  user_id : Nat
  date : Date
  shift_type : Option String
  check_in_time : StoredDT
  check_in_photo : Option String
  check_in_lat : Option Int
  check_in_lng : Option Int
  check_out_time : Option StoredDT
  check_out_photo : Option String
  check_out_lat : Option Int
  check_out_lng : Option Int
  status : String
  is_overtime : Bool
  duration_minutes : Int
deriving DecidableEq, Repr

/-- A row of the `user_schedules` table (src/app.py lines 83-91);
`user_id = none` is a global entry. -/
structure Schedule where
  user_id : Option Nat
  date : Date
  status : String
  description : String
deriving DecidableEq, Repr

/-- The attendance store, in insertion order. -/
abbrev LedgerState : Type := List Attendance

/-- The JSON body of an API response: `{'success': ..., 'message': ...}`. -/
structure ApiResp where
  success : Bool
  message : String
deriving DecidableEq, Repr

/-- The `Attendance.query.filter_by(user_id=..., date=...)` key predicate. -/
def attKey (uid : Nat) (d : Date) (a : Attendance) : Bool :=
  decide (a.user_id = uid ∧ a.date = d)

/-- Whether a record already exists for the pair (employee, date). -/
def hasRecordFor (s : LedgerState) (uid : Nat) (d : Date) : Bool :=
  (s.find? (attKey uid d)).isSome

/-- `api_check_in` (src/app.py lines 299-337): refuses a second check-in
for the same (user, date) before any mutation; otherwise inserts the one
new record with status from `calculate_status`. -/
def api_check_in (s : LedgerState) (uid : Nat) (now : DateTime)
    (shift : Option String) (photo : Option String) (lat lng : Option Int) :
    ApiResp × LedgerState :=
  if hasRecordFor s uid now.date then
    ({ success := false, message := "Already checked in for today." }, s)
  else
    ({ success := true, message := "Check-in Successful!" },
     s ++ [{ user_id := uid, date := now.date, shift_type := shift,
             check_in_time := StoredDT.aware now, check_in_photo := photo,
             check_in_lat := lat, check_in_lng := lng,
             check_out_time := none, check_out_photo := none,
             check_out_lat := none, check_out_lng := none,
             status := calculate_status now shift,
             is_overtime := false, duration_minutes := 0 }])

/-- Replace the first element satisfying `p` with its image under `f`
(the ORM mutates the single row returned by `.first()`). -/
def updateFirst (p : α → Bool) (f : α → α) : List α → List α
  | [] => []
  | a :: as => if p a then f a :: as else a :: updateFirst p f as

/-- The mutation `api_check_out` performs on today's record: sets the
check-out fields, the client-supplied overtime flag, and
`duration_minutes = int((now - ensure_timezone(check_in)).total_seconds() / 60)`. -/
def checkOutUpdate (now : DateTime) (ot : Bool) (photo : Option String)
    (lat lng : Option Int) (a : Attendance) : Attendance :=
  { a with check_out_time := some (StoredDT.aware now),
           check_out_photo := photo, check_out_lat := lat, check_out_lng := lng,
           is_overtime := ot,
           duration_minutes :=
             truncDiv (now.utcSeconds - ((ensure_timezone1 a.check_in_time).wall).utcSeconds) 60 }

/-- `api_check_out` (src/app.py lines 339-376): no record for today is an
error, an already-set check-out is an error (both before any mutation);
otherwise today's record is updated in place. -/
def api_check_out (s : LedgerState) (uid : Nat) (now : DateTime) (ot : Bool)
    (photo : Option String) (lat lng : Option Int) : ApiResp × LedgerState :=
  match s.find? (attKey uid now.date) with
  | none => ({ success := false, message := "No check-in record found for today." }, s)
  | some a =>
      if a.check_out_time.isSome then
        ({ success := false, message := "Already checked out." }, s)
      else
        ({ success := true, message := "Check-out Successful!" },
         updateFirst (attKey uid now.date) (checkOutUpdate now ot photo lat lng) s)

/-- The schedule alert of `api_status` (src/app.py lines 274-288): first
schedule entry for today that is either the user's own or global. -/
def alertFor (scheds : List Schedule) (uid : Nat) (d : Date) : Option String :=
  match scheds.find? (fun sch => decide (sch.date = d ∧ (sch.user_id = some uid ∨ sch.user_id = none))) with
  | none => none
  | some sch =>
      if sch.status = "OFF" ∨ sch.status = "CUTI" then
        some ("Anda terdaftar Libur/Cuti hari ini.")
      else if sch.status = "SAKIT" then
        some ("Anda terdaftar Sakit hari ini.")
      else if sch.status = "IZIN" then
        some ("Anda terdaftar Izin hari ini.")
      else none

/-- The JSON body returned by `/api/status`. -/
structure StatusResp where
  status : String
  shift : Option String
  check_in_time : Option String
  check_out_time : Option String
  overtime_enabled : Bool
  alert_msg : Option String
deriving DecidableEq, Repr

/-- `api_status` (src/app.py lines 244-297). -/
def api_status (s : LedgerState) (scheds : List Schedule) (uid : Nat)
    (now : DateTime) : StatusResp :=
  let base : StatusResp :=
    { status := "None", shift := none, check_in_time := none,
      check_out_time := none,
      overtime_enabled := is_overtime_enabled now,
      alert_msg := alertFor scheds uid now.date }
  match s.find? (attKey uid now.date) with
  | none => base
  | some a =>
      let cin := ensure_timezone (some a.check_in_time)
      let cout := ensure_timezone a.check_out_time
      { base with
        shift := a.shift_type,
        check_in_time := cin.map (fun t => fmtHM t.wall),
        check_out_time := cout.map (fun t => fmtHM t.wall),
        status := if a.check_out_time.isSome then "CheckedOut" else "CheckedIn" }

/-- Key clash: two records for the same employee and the same calendar
date. -/
def keyClash (a b : Attendance) : Prop :=
  a.user_id = b.user_id ∧ a.date = b.date

/-- The one-record-per-employee-per-day invariant. -/
def uniquePerKey (s : LedgerState) : Prop :=
  List.Pairwise (fun a b => ¬ keyClash a b) s

/-- The attendance states reachable through the public API.  `api_check_in`
is the only handler that inserts into `attendance` and `api_check_out` the
only one that updates it; every other route in src/app.py reads the table
or touches `users`/`user_schedules` only, so those leave this store as-is. -/
inductive Reachable : LedgerState → Prop where
  | init : Reachable []
  | checkIn (s : LedgerState) (uid : Nat) (now : DateTime) (shift : Option String)
      (photo : Option String) (lat lng : Option Int) :
      Reachable s → Reachable (api_check_in s uid now shift photo lat lng).2
  | checkOut (s : LedgerState) (uid : Nat) (now : DateTime) (ot : Bool)
      (photo : Option String) (lat lng : Option Int) :
      Reachable s → Reachable (api_check_out s uid now ot photo lat lng).2

/-- The role gate on `/export` (src/app.py lines 404-407): only ADMIN and
SPV sessions may generate the reports. -/
def export_allowed (role : String) : Bool :=
  decide (role = "ADMIN" ∨ role = "SPV")

/-- A row of the export's attendance data frame `df_att` (src/app.py lines
417-433): both stored instants pass through `ensure_timezone`; the derived
`day` column is `date.dt.day`, read off `date` here. The overtime-approval
flag `is_overtime` is deliberately NOT part of this frame, exactly as in
the source `data_list`. -/
structure AttRow where
  user_id : Nat
  date : Date
  status : String
  shift : Option String
  check_in : Option StoredDT
  check_out : Option StoredDT
deriving DecidableEq, Repr

/-- Conversion of one attendance record into its `df_att` row. -/
def toAttRow (a : Attendance) : AttRow :=
  { user_id := a.user_id, date := a.date, status := a.status,
    shift := a.shift_type,
    check_in := ensure_timezone (some a.check_in_time),
    check_out := ensure_timezone a.check_out_time }

/-- A row of the export's schedule data frame `df_sched` (src/app.py lines
436-446). -/
structure SchedRow where
  user_id : Option Nat
  date : Date
  status : String
deriving DecidableEq, Repr

/-- Conversion of one schedule entry into its `df_sched` row. -/
def toSchedRow (s : Schedule) : SchedRow :=
  { user_id := s.user_id, date := s.date, status := s.status }

/-- The hard-coded role-specific shift code of Report B (src/app.py lines
517-523): SPV rows use "1"/"2", every other role the staff letters; an
unknown or missing shift leaves the cell empty. -/
def shiftCodeFor (role : String) (shift : Option String) : String :=
  if role = "SPV" then
    if shift = some ("Pagi") then "1"
    else if shift = some ("Siang") ∨ shift = some ("Sore") then "2"
    else ""
  else
    if shift = some ("Pagi") then "P"
    else if shift = some ("Siang") then "S"
    else if shift = some ("Sore") then "M"
    else ""

/-- Report B's schedule-status code (src/app.py lines 536-546). -/
def schedCode (status : String) : String :=
  if status = "SAKIT" then "Skt"
  else if status = "IZIN" ∨ status = "CUTI" then "Izn"
  else if status = "OFF" then "Lbr"
  else ""

/-- `user_atts[user_atts['day'] == day].iloc[0]`: the first of the user's
attendance rows whose day-of-month matches. -/
def attForDay (atts : List AttRow) (uid day : Nat) : Option AttRow :=
  (atts.filter (fun r => decide (r.user_id = uid))).find?
    (fun r => decide (r.date.dayOfMonth = day))

/-- `user_scheds[user_scheds['day'] == day].iloc[0]`: the first schedule
row (user-specific or global, in stored order) whose day-of-month matches.
The source comment says "let's take first found" — no specific-over-global
ordering is applied. -/
def schedForDay (scheds : List SchedRow) (uid day : Nat) : Option SchedRow :=
  (scheds.filter (fun s => decide (s.user_id = some uid ∨ s.user_id = none))).find?
    (fun s => decide (s.date.dayOfMonth = day))

/-- One Report B cell (src/app.py lines 503-548): an attendance row for the
day wins and emits the role-specific shift code; otherwise the first
matching schedule row's code; otherwise empty. -/
def reportBCell (atts : List AttRow) (scheds : List SchedRow) (u : User)
    (day : Nat) : String :=
  match attForDay atts u.id day with
  | some a => shiftCodeFor u.role a.shift
  | none =>
      match schedForDay scheds u.id day with
      | some sch => schedCode sch.status
      | none => ""

/-- The day columns 1..31 of every report (fixed-width layout). -/
def daysOfMonthRange : List Nat := List.range' 1 31

/-- Report B's "Shift Hadir" counter: one per day column with an attendance
row (incremented whether or not the shift is known). -/
def shiftHadirCount (atts : List AttRow) (uid : Nat) : Nat :=
  (daysOfMonthRange.filter (fun d => (attForDay atts uid d).isSome)).length

/-- Report B's "Sakit" counter: days with no attendance whose first
matching schedule row is SAKIT. -/
def sakitCount (atts : List AttRow) (scheds : List SchedRow) (uid : Nat) : Nat :=
  (daysOfMonthRange.filter (fun d =>
    (attForDay atts uid d).isNone &&
      (schedForDay scheds uid d).any (fun sch => decide (sch.status = "SAKIT")))).length

/-- Report B's "Izin" counter: days with no attendance whose first matching
schedule row is IZIN or CUTI. -/
def izinCount (atts : List AttRow) (scheds : List SchedRow) (uid : Nat) : Nat :=
  (daysOfMonthRange.filter (fun d =>
    (attForDay atts uid d).isNone &&
      (schedForDay scheds uid d).any
        (fun sch => decide (sch.status = "IZIN" ∨ sch.status = "CUTI")))).length

/-- One employee row of Report B (src/app.py lines 485-553): the `Alpa`
column is written as the literal 0 of the initial row dict and never
reassigned in the loop. -/
structure ReportBRow where
  nama : String
  alpa : Nat
  sakit : Nat
  izin : Nat
  shift_hadir : Nat
  cells : List String
deriving DecidableEq, Repr

/-- Build one employee's Report B row. -/
def reportBRow (atts : List AttRow) (scheds : List SchedRow) (u : User) :
    ReportBRow :=
  { nama := u.full_name,
    alpa := 0,
    sakit := sakitCount atts scheds u.id,
    izin := izinCount atts scheds u.id,
    shift_hadir := shiftHadirCount atts u.id,
    cells := daysOfMonthRange.map (reportBCell atts scheds u) }

/-- Report B over the roster (`User.query.filter(User.role != 'ADMIN')`),
all attendance records and all schedule entries. -/
def reportB (users : List User) (atts : List Attendance)
    (scheds : List Schedule) : List ReportBRow :=
  (users.filter (fun u => decide (¬ u.role = "ADMIN"))).map
    (fun u => reportBRow (atts.map toAttRow) (scheds.map toSchedRow) u)

/-- One row of Report C (src/app.py lines 592-601). `tanggal` keeps the
date value the source formats with strftime. -/
structure ReportCRow where
  id : Nat
  tanggal : Date
  tipe_shift : String
  timestamp_in : String
  ops_mulai : String
  ops_pulang : String
  timestamp_out : String
  waktu_lembur : String
deriving DecidableEq, Repr

/-- The fields of one emitted Report C row (src/app.py lines 577-601):
`WAKTU_LEMBUR` is the zero-padded `HH:MM` of check-out minus the official
departure on the record's date when strictly positive, else the empty
string (`divmod(total_seconds, 3600)` then `divmod(remainder, 60)`). -/
def reportCRowMk (r : AttRow) (cout : StoredDT) (sname : String)
    (rule : ShiftRule) : ReportCRow :=
  { id := r.user_id, tanggal := r.date, tipe_shift := sname,
    timestamp_in :=
      (match r.check_in with
       | some c => fmtHMS c.wall
       | none => ""),
    ops_mulai := pad2 rule.start_h ++ ":" ++ pad2 rule.start_m,
    ops_pulang := pad2 rule.ops_pulang_h ++ ":" ++ pad2 rule.ops_pulang_m,
    timestamp_out := fmtHMS cout.wall,
    waktu_lembur :=
      if (opsPulangOn r.date rule).wallSeconds < cout.wall.wallSeconds then
        pad2 (((cout.wall.wallSeconds -
                  (opsPulangOn r.date rule).wallSeconds).toNat) / 3600) ++ ":" ++
        pad2 (((cout.wall.wallSeconds -
                  (opsPulangOn r.date rule).wallSeconds).toNat) % 3600 / 60)
      else "" }

/-- The Report C row of one `df_att` entry (src/app.py lines 565-601):
skipped without a check-out or with a falsy/unknown shift. The row is
emitted whatever the record's `is_overtime` flag — that flag is not even
part of `df_att`. -/
def reportCRowFor (r : AttRow) : Option ReportCRow :=
  match r.check_out with
  | none => none
  | some cout =>
      match r.shift with
      | none => none
      | some sname =>
          if sname = "" then none
          else
            match shiftLookup (some sname) with
            | none => none
            | some rule => some (reportCRowMk r cout sname rule)

/-- Report C over all attendance records (src/app.py lines 563-608). -/
def reportC (atts : List Attendance) : List ReportCRow :=
  (atts.map toAttRow).filterMap reportCRowFor

/-- The closed role hierarchy of the specification (§3, §9). -/
inductive Role where
  | STAFF
  | SUPERVISOR
  | MANAGER
  | OWNER
deriving DecidableEq, Repr

/-- Modelled from the spec: the Employee of §3 with its optional branch
tag. The `users` table under src/ has no branch column — the branch-scoped
components below belong to repository revisions not present under src/ and
are modelled from the specification's words. -/
structure SpecEmployee where
  id : Nat
  role : Role
  branch : Option String
deriving DecidableEq, Repr

/-- Modelled from the spec: the AttendanceRecord fields §4.3-§4.4 read
(employee, shift, check-out, approval state); src/ has no approve_overtime
operation. -/
structure SpecRecord where
  employee : SpecEmployee
  shift_name : Option String
  check_out : Option DateTime
  approved : Bool
  overtime_minutes : Nat
deriving DecidableEq, Repr

/-- Modelled from the spec: `OvertimeCalculator.potential_overtime` (§4.3)
— 0 for an unknown shift, a missing check-out, or a check-out at or before
the official departure (combined with the check-out's calendar date),
otherwise the whole minutes past departure. src/ computes this quantity
only as Report C's formatted string. -/
def potential_overtime (check_out : Option DateTime) (shift_name : Option String) : Nat :=
  match check_out, shiftLookup shift_name with
  | some co, some rule =>
      let dep := opsPulangOn co.date rule
      if co.wallSeconds ≤ dep.wallSeconds then 0
      else ((co.wallSeconds - dep.wallSeconds).toNat) / 60
  | _, _ => 0

/-- Modelled from the spec: `AttendanceLedger.approve_overtime` (§4.4),
absent from src/ (check-out there merely stores a client-supplied boolean):
Unauthorized for a STAFF approver or a SUPERVISOR of a different branch;
on success freezes `potential_overtime` of the current check-out into the
record and sets the approved flag. -/
def approve_overtime (record : SpecRecord) (approver : SpecEmployee) :
    Except String SpecRecord :=
  if approver.role = Role.STAFF ∨
     (approver.role = Role.SUPERVISOR ∧ approver.branch ≠ record.employee.branch) then
    Except.error ("Unauthorized")
  else
    Except.ok { record with
                approved := true,
                overtime_minutes := potential_overtime record.check_out record.shift_name }

/-- Modelled from the spec: `VisibilityFilter.visible_records` (§4.6),
absent from src/ (the `users` table has no branch and `/export` returns
every record to ADMIN/SPV): OWNER/MANAGER-tier viewers see everything,
SUPERVISOR-tier viewers only their own branch, STAFF only their own
records. -/
def visible_records (viewer : SpecEmployee) (records : List SpecRecord) :
    List SpecRecord :=
  match viewer.role with
  | Role.OWNER => records
  | Role.MANAGER => records
  | Role.SUPERVISOR => records.filter (fun r => decide (r.employee.branch = viewer.branch))
  | Role.STAFF => records.filter (fun r => decide (r.employee.id = viewer.id))

/-! ### Infrastructure lemmas -/

/-- Every element of `updateFirst p f l` is an element of `l` or the image
under `f` of one. -/
theorem mem_updateFirst {α : Type} {p : α → Bool} {f : α → α} {b : α} :
    ∀ {l : List α}, b ∈ updateFirst p f l → b ∈ l ∨ ∃ c, c ∈ l ∧ b = f c
  | [], h => by simp [updateFirst] at h
  | a :: as, h => by
      simp only [updateFirst] at h
      split at h
      · rcases List.mem_cons.mp h with h1 | h1
        · exact Or.inr ⟨a, List.mem_cons_self a as, h1⟩
        · exact Or.inl (List.mem_cons_of_mem a h1)
      · rcases List.mem_cons.mp h with h1 | h1
        · exact Or.inl (h1 ▸ List.mem_cons_self a as)
        · rcases mem_updateFirst h1 with h2 | ⟨c, hc, hbc⟩
          · exact Or.inl (List.mem_cons_of_mem a h2)
          · exact Or.inr ⟨c, List.mem_cons_of_mem a hc, hbc⟩

/-- `updateFirst` preserves pairwise relations that are invariant under the
update function on either side. -/
theorem updateFirst_pairwise {α : Type} {R : α → α → Prop} {p : α → Bool} {f : α → α}
    (hfL : ∀ a b, R a b → R (f a) b) (hfR : ∀ a b, R a b → R a (f b)) :
    ∀ {l : List α}, l.Pairwise R → (updateFirst p f l).Pairwise R
  | [], _ => by simp [updateFirst]
  | a :: as, h => by
      rcases List.pairwise_cons.mp h with ⟨h1, h2⟩
      simp only [updateFirst]
      split
      · exact List.pairwise_cons.mpr ⟨fun b hb => hfL a b (h1 b hb), h2⟩
      · refine List.pairwise_cons.mpr ⟨?_, updateFirst_pairwise hfL hfR h2⟩
        intro b hb
        rcases mem_updateFirst hb with h3 | ⟨c, hc, rfl⟩
        · exact h1 b h3
        · exact hfR a c (h1 c hc)

/-- `checkOutUpdate` never changes the (employee, date) key of a record. -/
theorem checkOutUpdate_key (now : DateTime) (ot : Bool) (photo : Option String)
    (lat lng : Option Int) (a : Attendance) :
    (checkOutUpdate now ot photo lat lng a).user_id = a.user_id ∧
    (checkOutUpdate now ot photo lat lng a).date = a.date := by
  constructor <;> rfl

/-- The state after `api_check_out` is either unchanged or an in-place
update of the first record with today's key. -/
theorem api_check_out_snd (s : LedgerState) (uid : Nat) (now : DateTime) (ot : Bool)
    (photo : Option String) (lat lng : Option Int) :
    (api_check_out s uid now ot photo lat lng).2 = s ∨
    (api_check_out s uid now ot photo lat lng).2 =
      updateFirst (attKey uid now.date) (checkOutUpdate now ot photo lat lng) s := by
  unfold api_check_out
  cases s.find? (attKey uid now.date) with
  | none => exact Or.inl rfl
  | some a =>
      by_cases hco : a.check_out_time.isSome
      · exact Or.inl (by simp [hco])
      · exact Or.inr (by simp [hco])

/-- Every reachable attendance state has at most one record per
(employee, date) pair. -/
theorem reachable_uniquePerKey : ∀ {s : LedgerState}, Reachable s → uniquePerKey s := by
  intro s h
  induction h with
  | init => exact List.Pairwise.nil
  | checkIn s uid now shift photo lat lng _ ih =>
      by_cases hex : hasRecordFor s uid now.date
      · simpa [api_check_in, hex] using ih
      · have hnone : s.find? (attKey uid now.date) = none := by
          unfold hasRecordFor at hex
          exact Option.not_isSome_iff_eq_none.mp hex
        simp only [api_check_in, hex, Bool.false_eq_true, if_false]
        refine List.pairwise_append.mpr ⟨ih, List.pairwise_singleton _ _, ?_⟩
        intro a ha b hb
        rcases List.mem_singleton.mp hb with rfl
        have hkey := List.find?_eq_none.mp hnone a ha
        unfold attKey at hkey
        intro hk
        rcases hk with ⟨hu, hd⟩
        exact hkey (by simp_all)
  | checkOut s uid now ot photo lat lng _ ih =>
      rcases api_check_out_snd s uid now ot photo lat lng with h2 | h2 <;> rw [h2]
      · exact ih
      · refine updateFirst_pairwise ?_ ?_ ih
        · intro x y hxy hk
          rcases hk with ⟨hu, hd⟩
          exact hxy ⟨by simpa [checkOutUpdate] using hu, by simpa [checkOutUpdate] using hd⟩
        · intro x y hxy hk
          rcases hk with ⟨hu, hd⟩
          exact hxy ⟨by simpa [checkOutUpdate] using hu, by simpa [checkOutUpdate] using hd⟩

/-! ### Sample values for witnesses -/

/-- A fixed sample date. -/
def sampleDate : Date := { dayIdx := 100, dayOfMonth := 5 }

/-- A sample check-in instant, 10:14:00 on `sampleDate`. -/
def sampleNow : DateTime := { date := sampleDate, tod := 10 * 3600 + 14 * 60 }

/-- A sample attendance record of employee 1 on `sampleDate`. -/
def sampleRec : Attendance :=
  { user_id := 1, date := sampleDate, shift_type := some ("Pagi"),
    check_in_time := StoredDT.aware sampleNow,
    check_in_photo := none, check_in_lat := none, check_in_lng := none,
    check_out_time := none, check_out_photo := none,
    check_out_lat := none, check_out_lng := none,
    status := "Hadir", is_overtime := false, duration_minutes := 0 }

/-! ### Claims -/

/-- C1. For every employee and calendar date, at most one attendance record
exists for the pair (employee, date): `api_check_in` for an employee who
already has a record for today's date fails with the duplicate-check-in
error and leaves the store unchanged (creating no record), and — check-in
and check-out being the only operations that write the attendance store —
the one-record-per-employee-per-day invariant holds in every reachable
state. -/
theorem C1_one_record_per_employee_per_day :
    (∀ (s : LedgerState) (uid : Nat) (now : DateTime) (shift : Option String)
       (photo : Option String) (lat lng : Option Int),
       hasRecordFor s uid now.date = true →
       api_check_in s uid now shift photo lat lng =
         ({ success := false, message := "Already checked in for today." }, s)) ∧
    (∀ s : LedgerState, Reachable s → uniquePerKey s) := by
  constructor
  · intro s uid now shift photo lat lng h
    simp [api_check_in, h]
  · intro s h
    exact reachable_uniquePerKey h

/-- Witness for C1 at a concrete store: a second same-day check-in for
employee 1 is refused and changes nothing, and a concrete reachable state
satisfies the invariant. -/
theorem C1_one_record_per_employee_per_day_witness :
    hasRecordFor [sampleRec] 1 sampleNow.date = true ∧
    api_check_in [sampleRec] 1 sampleNow (some ("Pagi")) none none none =
      ({ success := false, message := "Already checked in for today." }, [sampleRec]) ∧
    uniquePerKey [] :=
  ⟨by decide,
   C1_one_record_per_employee_per_day.1 [sampleRec] 1 sampleNow (some ("Pagi"))
     none none none (by decide),
   C1_one_record_per_employee_per_day.2 [] Reachable.init⟩

/-- C2. Classification returns Present ("Hadir") when the shift is not
known; otherwise it returns Late ("Terlambat") iff the check-in instant is
strictly after the shift's start on the check-in's calendar date plus the
15-minute grace period; concretely, with shift Pagi starting 10:00, a
10:14 check-in is Present and a 10:16 check-in is Late. -/
theorem C2_status_classification (t : DateTime) (s : Option String) :
    (shiftLookup s = none → calculate_status t s = "Hadir") ∧
    (∀ rule : ShiftRule, shiftLookup s = some rule →
       (calculate_status t s = "Terlambat" ↔
          (shiftStartOn t.date rule).wallSeconds + 900 < t.wallSeconds) ∧
       (calculate_status t s = "Hadir" ↔
          ¬ ((shiftStartOn t.date rule).wallSeconds + 900 < t.wallSeconds))) ∧
    (calculate_status { date := sampleDate, tod := 10 * 3600 + 14 * 60 } (some ("Pagi")) = "Hadir" ∧
     calculate_status { date := sampleDate, tod := 10 * 3600 + 16 * 60 } (some ("Pagi")) = "Terlambat") := by
  refine ⟨?_, ?_, by decide, by decide⟩
  · intro h
    simp [calculate_status, h]
  · intro rule h
    have he : calculate_status t s =
        if (shiftStartOn t.date rule).wallSeconds + 900 < t.wallSeconds
        then "Terlambat" else "Hadir" := by
      simp [calculate_status, h]
    rw [he]
    by_cases hc : (shiftStartOn t.date rule).wallSeconds + 900 < t.wallSeconds
    · rw [if_pos hc]
      exact ⟨iff_of_true rfl hc, iff_of_false (by decide) (not_not_intro hc)⟩
    · rw [if_neg hc]
      exact ⟨iff_of_false (by decide) hc, iff_of_true rfl hc⟩

/-- Witness for C2 at a concrete instant: 13:00 on shift Siang
(start 12:00) is strictly past 12:15, hence Late. -/
theorem C2_status_classification_witness :
    shiftLookup (some ("Siang")) = some siangRule ∧
    (calculate_status { date := sampleDate, tod := 13 * 3600 } (some ("Siang")) = "Terlambat" ↔
       (shiftStartOn sampleDate siangRule).wallSeconds + 900 <
         ({ date := sampleDate, tod := 13 * 3600 } : DateTime).wallSeconds) :=
  ⟨by decide,
   ((C2_status_classification { date := sampleDate, tod := 13 * 3600 }
      (some ("Siang"))).2.1 siangRule (by decide)).1⟩

/-- C5. `api_check_out` fails with the no-check-in error when no record
exists for (employee, today) and with the already-checked-out error when
today's record has a check-out time, leaving the store unchanged in both
cases; otherwise it updates today's record in place, setting the check-out
fields and `duration_minutes` to the whole-minute truncation of now minus
the check-in instant, where a stored check-in with no time-zone tag is
read as organization-local wall-clock time (never UTC): the duration is
the wall-clock difference for naive and aware stored values alike. -/
theorem C5_check_out (s : LedgerState) (uid : Nat) (now : DateTime) (ot : Bool)
    (photo : Option String) (lat lng : Option Int) :
    (s.find? (attKey uid now.date) = none →
       api_check_out s uid now ot photo lat lng =
         ({ success := false, message := "No check-in record found for today." }, s)) ∧
    (∀ a : Attendance, s.find? (attKey uid now.date) = some a →
       a.check_out_time.isSome = true →
       api_check_out s uid now ot photo lat lng =
         ({ success := false, message := "Already checked out." }, s)) ∧
    (∀ a : Attendance, s.find? (attKey uid now.date) = some a →
       a.check_out_time = none →
       api_check_out s uid now ot photo lat lng =
         ({ success := true, message := "Check-out Successful!" },
          updateFirst (attKey uid now.date) (checkOutUpdate now ot photo lat lng) s) ∧
       (checkOutUpdate now ot photo lat lng a).check_out_time = some (StoredDT.aware now) ∧
       (checkOutUpdate now ot photo lat lng a).is_overtime = ot ∧
       (checkOutUpdate now ot photo lat lng a).duration_minutes =
         truncDiv (now.wallSeconds - a.check_in_time.wall.wallSeconds) 60) := by
  refine ⟨?_, ?_, ?_⟩
  · intro h
    simp [api_check_out, h]
  · intro a h hco
    simp [api_check_out, h, hco]
  · intro a h hco
    refine ⟨by simp [api_check_out, h, hco], rfl, rfl, ?_⟩
    show truncDiv (now.utcSeconds - ((ensure_timezone1 a.check_in_time).wall).utcSeconds) 60 = _
    cases a.check_in_time with
    | aware dt =>
        simp only [ensure_timezone1, StoredDT.wall, DateTime.utcSeconds]
        congr 1
        omega
    | naive dt =>
        simp only [ensure_timezone1, StoredDT.wall, DateTime.utcSeconds]
        congr 1
        omega

/-- Witness for C5: a store whose only record has a naive stored check-in
at 10:14 wall clock; checking out at 16:45 succeeds with a duration of 391
whole minutes — the wall-clock difference, not skewed by a UTC reading. -/
theorem C5_check_out_witness :
    ([{ sampleRec with check_in_time := StoredDT.naive sampleNow }] :
        LedgerState).find? (attKey 1 sampleDate) =
      some { sampleRec with check_in_time := StoredDT.naive sampleNow } ∧
    (api_check_out [{ sampleRec with check_in_time := StoredDT.naive sampleNow }] 1
        { date := sampleDate, tod := 16 * 3600 + 45 * 60 } false none none none =
      ({ success := true, message := "Check-out Successful!" },
       updateFirst (attKey 1 sampleDate)
         (checkOutUpdate { date := sampleDate, tod := 16 * 3600 + 45 * 60 } false none none none)
         [{ sampleRec with check_in_time := StoredDT.naive sampleNow }]) ∧
     (checkOutUpdate { date := sampleDate, tod := 16 * 3600 + 45 * 60 } false none none none
        { sampleRec with check_in_time := StoredDT.naive sampleNow }).check_out_time =
       some (StoredDT.aware { date := sampleDate, tod := 16 * 3600 + 45 * 60 }) ∧
     (checkOutUpdate { date := sampleDate, tod := 16 * 3600 + 45 * 60 } false none none none
        { sampleRec with check_in_time := StoredDT.naive sampleNow }).is_overtime = false ∧
     (checkOutUpdate { date := sampleDate, tod := 16 * 3600 + 45 * 60 } false none none none
        { sampleRec with check_in_time := StoredDT.naive sampleNow }).duration_minutes =
       truncDiv (({ date := sampleDate, tod := 16 * 3600 + 45 * 60 } : DateTime).wallSeconds -
         ({ sampleRec with check_in_time := StoredDT.naive sampleNow } :
            Attendance).check_in_time.wall.wallSeconds) 60) ∧
    truncDiv (({ date := sampleDate, tod := 16 * 3600 + 45 * 60 } : DateTime).wallSeconds -
      ({ sampleRec with check_in_time := StoredDT.naive sampleNow } :
         Attendance).check_in_time.wall.wallSeconds) 60 = 391 :=
  ⟨by decide,
   by
     have hd : sampleDate =
         ({ date := sampleDate, tod := 16 * 3600 + 45 * 60 } : DateTime).date := rfl
     exact hd ▸ (C5_check_out [{ sampleRec with check_in_time := StoredDT.naive sampleNow }] 1
       { date := sampleDate, tod := 16 * 3600 + 45 * 60 } false none none none).2.2
       { sampleRec with check_in_time := StoredDT.naive sampleNow } (by decide) rfl,
   by decide⟩

/-- C3. The visibility filter never returns a record whose employee's
branch differs from a SUPERVISOR viewer's branch; OWNER/MANAGER-tier
viewers see all records, and STAFF-tier viewers see only their own.
(Modelled from the spec §4.6: the `users` table under src/ has no branch
column and `/export` applies no per-branch filter.) -/
theorem C3_branch_visibility (viewer : SpecEmployee) (records : List SpecRecord) :
    (viewer.role = Role.SUPERVISOR →
       ∀ r ∈ visible_records viewer records, r.employee.branch = viewer.branch) ∧
    ((viewer.role = Role.OWNER ∨ viewer.role = Role.MANAGER) →
       visible_records viewer records = records) ∧
    (viewer.role = Role.STAFF →
       ∀ r ∈ visible_records viewer records, r.employee.id = viewer.id) := by
  refine ⟨?_, ?_, ?_⟩
  · intro h r hr
    rw [visible_records, h] at hr
    simpa using (List.mem_filter.mp hr).2
  · rintro (h | h) <;> rw [visible_records, h]
  · intro h r hr
    rw [visible_records, h] at hr
    simpa using (List.mem_filter.mp hr).2

/-- Witness for C3: a SUPERVISOR of branch "Jakbar" sees none of the
records of a "Cabang 2" employee. -/
theorem C3_branch_visibility_witness :
    ({ id := 2, role := Role.SUPERVISOR, branch := some ("Jakbar") } :
      SpecEmployee).role = Role.SUPERVISOR ∧
    ∀ r ∈ visible_records { id := 2, role := Role.SUPERVISOR, branch := some ("Jakbar") }
        [{ employee := { id := 7, role := Role.STAFF, branch := some ("Cabang 2") },
           shift_name := some ("Pagi"), check_out := none,
           approved := false, overtime_minutes := 0 }],
      r.employee.branch = some ("Jakbar") :=
  ⟨rfl,
   C3_branch_visibility { id := 2, role := Role.SUPERVISOR, branch := some ("Jakbar") }
     [{ employee := { id := 7, role := Role.STAFF, branch := some ("Cabang 2") },
        shift_name := some ("Pagi"), check_out := none,
        approved := false, overtime_minutes := 0 }] |>.1 rfl⟩

/-- C4. Overtime approval fails with Unauthorized when the approver is
STAFF or a SUPERVISOR of a different branch than the employee, and on
success sets the approved flag and freezes the potential overtime of the
record's current check-out into `overtime_minutes`. (Modelled from the
spec §4.4: src/ has no approve_overtime operation — its check-out merely
stores a client-supplied boolean.) -/
theorem C4_approve_overtime (record : SpecRecord) (approver : SpecEmployee) :
    (approver.role = Role.STAFF ∨
       (approver.role = Role.SUPERVISOR ∧ approver.branch ≠ record.employee.branch) →
     approve_overtime record approver = Except.error ("Unauthorized")) ∧
    (¬ (approver.role = Role.STAFF ∨
        (approver.role = Role.SUPERVISOR ∧ approver.branch ≠ record.employee.branch)) →
     approve_overtime record approver =
       Except.ok { record with
                   approved := true,
                   overtime_minutes :=
                     potential_overtime record.check_out record.shift_name }) := by
  constructor
  · intro h
    simp [approve_overtime, h]
  · intro h
    simp [approve_overtime, h]

/-- Witness for C4: a STAFF approver is refused; a MANAGER approving a
Pagi record checked out at 16:45 succeeds and freezes 45 minutes. -/
theorem C4_approve_overtime_witness :
    (approve_overtime
       { employee := { id := 7, role := Role.STAFF, branch := some ("Jakbar") },
         shift_name := some ("Pagi"),
         check_out := some { date := sampleDate, tod := 16 * 3600 + 45 * 60 },
         approved := false, overtime_minutes := 0 }
       { id := 9, role := Role.STAFF, branch := some ("Jakbar") } =
      Except.error ("Unauthorized")) ∧
    (approve_overtime
       { employee := { id := 7, role := Role.STAFF, branch := some ("Jakbar") },
         shift_name := some ("Pagi"),
         check_out := some { date := sampleDate, tod := 16 * 3600 + 45 * 60 },
         approved := false, overtime_minutes := 0 }
       { id := 3, role := Role.MANAGER, branch := none } =
      Except.ok
        { employee := { id := 7, role := Role.STAFF, branch := some ("Jakbar") },
          shift_name := some ("Pagi"),
          check_out := some { date := sampleDate, tod := 16 * 3600 + 45 * 60 },
          approved := true,
          overtime_minutes :=
            potential_overtime (some { date := sampleDate, tod := 16 * 3600 + 45 * 60 })
              (some ("Pagi")) }) ∧
    potential_overtime (some { date := sampleDate, tod := 16 * 3600 + 45 * 60 })
      (some ("Pagi")) = 45 :=
  ⟨(C4_approve_overtime
      { employee := { id := 7, role := Role.STAFF, branch := some ("Jakbar") },
        shift_name := some ("Pagi"),
        check_out := some { date := sampleDate, tod := 16 * 3600 + 45 * 60 },
        approved := false, overtime_minutes := 0 }
      { id := 9, role := Role.STAFF, branch := some ("Jakbar") }).1 (Or.inl rfl),
   (C4_approve_overtime
      { employee := { id := 7, role := Role.STAFF, branch := some ("Jakbar") },
        shift_name := some ("Pagi"),
        check_out := some { date := sampleDate, tod := 16 * 3600 + 45 * 60 },
        approved := false, overtime_minutes := 0 }
      { id := 3, role := Role.MANAGER, branch := none }).2 (by decide),
   by decide⟩

/-- C10. The overtime-enabled flag returned by the status API equals
`is_overtime_enabled now` for every viewer and every attendance store, and
that flag is true iff the server's Jakarta wall clock is at or past 16:00
of that day; it takes no shift as input, so it is already true at 16:00
even for Siang and Sore, whose official departures are 20:00 and 22:00. -/
theorem C10_overtime_cutoff (s : LedgerState) (scheds : List Schedule)
    (uid : Nat) (now : DateTime) :
    (api_status s scheds uid now).overtime_enabled = is_overtime_enabled now ∧
    (is_overtime_enabled now = true ↔ 16 * 3600 ≤ now.tod) ∧
    (∀ rule : ShiftRule, shiftLookup (some ("Siang")) = some rule →
       rule.ops_pulang_h = 20 ∧ rule.ops_pulang_m = 0) ∧
    (∀ rule : ShiftRule, shiftLookup (some ("Sore")) = some rule →
       rule.ops_pulang_h = 22 ∧ rule.ops_pulang_m = 0) ∧
    is_overtime_enabled { date := now.date, tod := 16 * 3600 } = true := by
  refine ⟨?_, ?_, ?_, ?_, ?_⟩
  · unfold api_status
    cases (s.find? (attKey uid now.date)) with
    | none => rfl
    | some a => rfl
  · simp only [is_overtime_enabled, DateTime.wallSeconds, decide_eq_true_eq]
    omega
  · intro rule h
    have : rule = siangRule := by
      have hs : shiftLookup (some ("Siang")) = some siangRule := by decide
      rw [hs] at h
      exact (Option.some_inj.mp h).symm
    rw [this]
    exact ⟨rfl, rfl⟩
  · intro rule h
    have : rule = soreRule := by
      have hs : shiftLookup (some ("Sore")) = some soreRule := by decide
      rw [hs] at h
      exact (Option.some_inj.mp h).symm
    rw [this]
    exact ⟨rfl, rfl⟩
  · simp [is_overtime_enabled, DateTime.wallSeconds]

/-- Witness for C10: at exactly 16:00 the flag is on, with the Siang
departure values read off the rule table. -/
theorem C10_overtime_cutoff_witness :
    (is_overtime_enabled { date := sampleDate, tod := 16 * 3600 } = true ↔
       16 * 3600 ≤ ({ date := sampleDate, tod := 16 * 3600 } : DateTime).tod) ∧
    (siangRule.ops_pulang_h = 20 ∧ siangRule.ops_pulang_m = 0) ∧
    (api_status [] [] 1 { date := sampleDate, tod := 16 * 3600 }).overtime_enabled =
      is_overtime_enabled { date := sampleDate, tod := 16 * 3600 } :=
  ⟨(C10_overtime_cutoff [] [] 1 { date := sampleDate, tod := 16 * 3600 }).2.1,
   (C10_overtime_cutoff [] [] 1 { date := sampleDate, tod := 16 * 3600 }).2.2.1
     siangRule (by decide),
   (C10_overtime_cutoff [] [] 1 { date := sampleDate, tod := 16 * 3600 }).1⟩

/-- C6. In Report B, a day with an attendance record always shows the
role-specific shift code (never a schedule code) and counts toward the
"Shift Hadir" counter; otherwise the first applicable schedule entry shows
Skt for SAKIT (counting toward the sick counter), Izn for IZIN/CUTI
(counting toward the permit counter), or Lbr for OFF (counting toward no
counter); otherwise the cell is empty. -/
theorem C6_reportB_precedence (atts : List AttRow) (scheds : List SchedRow)
    (u : User) (day : Nat) :
    ((reportBRow atts scheds u).cells = daysOfMonthRange.map (reportBCell atts scheds u)) ∧
    (∀ a : AttRow, attForDay atts u.id day = some a →
       reportBCell atts scheds u day = shiftCodeFor u.role a.shift) ∧
    (attForDay atts u.id day = none →
       ∀ sch : SchedRow, schedForDay scheds u.id day = some sch →
         (sch.status = "SAKIT" → reportBCell atts scheds u day = "Skt") ∧
         (sch.status = "IZIN" ∨ sch.status = "CUTI" →
            reportBCell atts scheds u day = "Izn") ∧
         (sch.status = "OFF" → reportBCell atts scheds u day = "Lbr")) ∧
    (attForDay atts u.id day = none → schedForDay scheds u.id day = none →
       reportBCell atts scheds u day = "") ∧
    ((reportBRow atts scheds u).shift_hadir =
       (daysOfMonthRange.filter (fun d => (attForDay atts u.id d).isSome)).length) ∧
    ((reportBRow atts scheds u).sakit =
       (daysOfMonthRange.filter (fun d => (attForDay atts u.id d).isNone &&
          (schedForDay scheds u.id d).any (fun sch => decide (sch.status = "SAKIT")))).length) ∧
    ((reportBRow atts scheds u).izin =
       (daysOfMonthRange.filter (fun d => (attForDay atts u.id d).isNone &&
          (schedForDay scheds u.id d).any
            (fun sch => decide (sch.status = "IZIN" ∨ sch.status = "CUTI")))).length) := by
  refine ⟨rfl, ?_, ?_, ?_, rfl, rfl, rfl⟩
  · intro a h
    simp [reportBCell, h]
  · intro h sch hs
    have hc : reportBCell atts scheds u day = schedCode sch.status := by
      simp [reportBCell, h, hs]
    refine ⟨?_, ?_, ?_⟩
    · intro hst
      rw [hc, hst]
      decide
    · rintro (hst | hst) <;> rw [hc, hst] <;> decide
    · intro hst
      rw [hc, hst]
      decide
  · intro h1 h2
    simp [reportBCell, h1, h2]

/-- Witness for C6: on day 5 employee 1 has both an attendance row (Pagi)
and an OFF schedule entry; the cell shows the staff shift code "P", not
"Lbr". -/
theorem C6_reportB_precedence_witness :
    attForDay [{ user_id := 1, date := sampleDate, status := "Hadir",
                 shift := some ("Pagi"), check_in := none, check_out := none }] 1 5 =
      some { user_id := 1, date := sampleDate, status := "Hadir",
             shift := some ("Pagi"), check_in := none, check_out := none } ∧
    reportBCell [{ user_id := 1, date := sampleDate, status := "Hadir",
                   shift := some ("Pagi"), check_in := none, check_out := none }]
        [{ user_id := none, date := sampleDate, status := "OFF" }]
        { id := 1, username := "staff", role := "STAFF", full_name := "Staff Member" } 5 =
      shiftCodeFor "STAFF" (some ("Pagi")) ∧
    shiftCodeFor "STAFF" (some ("Pagi")) = "P" :=
  ⟨by decide,
   (C6_reportB_precedence
      [{ user_id := 1, date := sampleDate, status := "Hadir",
         shift := some ("Pagi"), check_in := none, check_out := none }]
      [{ user_id := none, date := sampleDate, status := "OFF" }]
      { id := 1, username := "staff", role := "STAFF", full_name := "Staff Member" } 5).2.1
     { user_id := 1, date := sampleDate, status := "Hadir",
       shift := some ("Pagi"), check_in := none, check_out := none } (by decide),
   by decide⟩

/-- C7 counterexample. With a global OFF entry stored before an
employee-specific SAKIT entry for the same date (and no attendance), the
Report B cell shows "Lbr" from the global entry — not "Skt" from the
employee-specific one — and the sick counter stays 0, refuting
specific-over-global precedence. -/
theorem C7_counterexample :
    reportBCell []
        [{ user_id := none, date := { dayIdx := 11, dayOfMonth := 12 }, status := "OFF" },
         { user_id := some 1, date := { dayIdx := 11, dayOfMonth := 12 }, status := "SAKIT" }]
        { id := 1, username := "staff", role := "STAFF", full_name := "Staff Member" } 12 =
      "Lbr" ∧
    sakitCount []
        [{ user_id := none, date := { dayIdx := 11, dayOfMonth := 12 }, status := "OFF" },
         { user_id := some 1, date := { dayIdx := 11, dayOfMonth := 12 }, status := "SAKIT" }]
        1 = 0 ∧
    ¬ (("Lbr" : String) = "Skt") :=
  ⟨by decide, by decide, by decide⟩

/-- C7 (amended). When several schedule entries apply to the same employee
and day, Report B uses the first matching entry in the stored order of the
schedule list, regardless of whether it is employee-specific or global:
the head of the list wins whenever it applies. -/
theorem C7_schedule_first_found (atts : List AttRow) (rest : List SchedRow)
    (u : User) (day : Nat) (s1 : SchedRow) :
    (s1.user_id = some u.id ∨ s1.user_id = none) → s1.date.dayOfMonth = day →
    schedForDay (s1 :: rest) u.id day = some s1 ∧
    (attForDay atts u.id day = none →
       reportBCell atts (s1 :: rest) u day = schedCode s1.status) := by
  intro hu hd
  have h1 : schedForDay (s1 :: rest) u.id day = some s1 := by
    unfold schedForDay
    rw [List.filter_cons, if_pos (by simpa using hu)]
    exact List.find?_cons_of_pos _ (by simpa using hd)
  refine ⟨h1, ?_⟩
  intro hatt
  simp [reportBCell, hatt, h1]

/-- Witness for C7 (amended): the global OFF entry at the head of the list
applies to employee 1 on day 12, so it provides the cell code even though
an employee-specific SAKIT entry follows. -/
theorem C7_schedule_first_found_witness :
    (({ user_id := none, date := { dayIdx := 11, dayOfMonth := 12 },
        status := "OFF" } : SchedRow).user_id = some 1 ∨
     ({ user_id := none, date := { dayIdx := 11, dayOfMonth := 12 },
        status := "OFF" } : SchedRow).user_id = none) ∧
    schedForDay
        [{ user_id := none, date := { dayIdx := 11, dayOfMonth := 12 }, status := "OFF" },
         { user_id := some 1, date := { dayIdx := 11, dayOfMonth := 12 }, status := "SAKIT" }]
        1 12 =
      some { user_id := none, date := { dayIdx := 11, dayOfMonth := 12 }, status := "OFF" } ∧
    reportBCell []
        [{ user_id := none, date := { dayIdx := 11, dayOfMonth := 12 }, status := "OFF" },
         { user_id := some 1, date := { dayIdx := 11, dayOfMonth := 12 }, status := "SAKIT" }]
        { id := 1, username := "staff", role := "STAFF", full_name := "Staff Member" } 12 =
      schedCode "OFF" :=
  ⟨Or.inr rfl,
   (C7_schedule_first_found []
      [{ user_id := some 1, date := { dayIdx := 11, dayOfMonth := 12 }, status := "SAKIT" }]
      { id := 1, username := "staff", role := "STAFF", full_name := "Staff Member" } 12
      { user_id := none, date := { dayIdx := 11, dayOfMonth := 12 }, status := "OFF" }
      (Or.inr rfl) rfl).1,
   (C7_schedule_first_found []
      [{ user_id := some 1, date := { dayIdx := 11, dayOfMonth := 12 }, status := "SAKIT" }]
      { id := 1, username := "staff", role := "STAFF", full_name := "Staff Member" } 12
      { user_id := none, date := { dayIdx := 11, dayOfMonth := 12 }, status := "OFF" }
      (Or.inr rfl) rfl).2 (by decide)⟩

/-- C8 counterexample. An employee with exactly one attendance day and no
schedule entries: the claim's derived count 31 − (1+0+0+0) = 30, but the
Report B row reports Alpa = 0. -/
theorem C8_counterexample :
    (reportBRow
        [{ user_id := 1, date := sampleDate, status := "Hadir",
           shift := some ("Pagi"), check_in := none, check_out := none }] []
        { id := 1, username := "staff", role := "STAFF",
          full_name := "Staff Member" }).alpa = 0 ∧
    (reportBRow
        [{ user_id := 1, date := sampleDate, status := "Hadir",
           shift := some ("Pagi"), check_in := none, check_out := none }] []
        { id := 1, username := "staff", role := "STAFF",
          full_name := "Staff Member" }).shift_hadir = 1 ∧
    (reportBRow
        [{ user_id := 1, date := sampleDate, status := "Hadir",
           shift := some ("Pagi"), check_in := none, check_out := none }] []
        { id := 1, username := "staff", role := "STAFF",
          full_name := "Staff Member" }).sakit = 0 ∧
    (reportBRow
        [{ user_id := 1, date := sampleDate, status := "Hadir",
           shift := some ("Pagi"), check_in := none, check_out := none }] []
        { id := 1, username := "staff", role := "STAFF",
          full_name := "Staff Member" }).izin = 0 ∧
    ¬ ((0 : Nat) = 31 - (1 + 0 + 0 + 0)) :=
  ⟨rfl, by decide, by decide, by decide, by decide⟩

/-- C8 (amended). Days with neither an attendance record nor an applicable
schedule entry show an empty cell and contribute to none of the sick,
permit or shift-present counters; the Alpa column, however, is emitted as
the constant 0 for every row — the derived count days-in-month minus
(present + sick + permit + off) is never computed. -/
theorem C8_alpa_constant_zero (atts : List AttRow) (scheds : List SchedRow) (u : User) :
    (reportBRow atts scheds u).alpa = 0 ∧
    (∀ day : Nat, attForDay atts u.id day = none → schedForDay scheds u.id day = none →
       reportBCell atts scheds u day = "" ∧
       (attForDay atts u.id day).isSome = false ∧
       ((schedForDay scheds u.id day).any (fun sch => decide (sch.status = "SAKIT"))) = false ∧
       ((schedForDay scheds u.id day).any
          (fun sch => decide (sch.status = "IZIN" ∨ sch.status = "CUTI"))) = false) := by
  refine ⟨rfl, ?_⟩
  intro day h1 h2
  refine ⟨by simp [reportBCell, h1, h2], by simp [h1], by simp [h2], by simp [h2]⟩

/-- Witness for C8 (amended): day 20 has neither a record nor a schedule
entry for employee 1; the cell is empty and no counter predicate holds,
while Alpa is 0. -/
theorem C8_alpa_constant_zero_witness :
    attForDay [{ user_id := 1, date := sampleDate, status := "Hadir",
                 shift := some ("Pagi"), check_in := none, check_out := none }] 1 20 = none ∧
    (reportBRow
        [{ user_id := 1, date := sampleDate, status := "Hadir",
           shift := some ("Pagi"), check_in := none, check_out := none }] []
        { id := 1, username := "staff", role := "STAFF",
          full_name := "Staff Member" }).alpa = 0 ∧
    reportBCell
        [{ user_id := 1, date := sampleDate, status := "Hadir",
           shift := some ("Pagi"), check_in := none, check_out := none }] []
        { id := 1, username := "staff", role := "STAFF",
          full_name := "Staff Member" } 20 = "" :=
  ⟨by decide,
   (C8_alpa_constant_zero
      [{ user_id := 1, date := sampleDate, status := "Hadir",
         shift := some ("Pagi"), check_in := none, check_out := none }] []
      { id := 1, username := "staff", role := "STAFF",
        full_name := "Staff Member" }).1,
   ((C8_alpa_constant_zero
      [{ user_id := 1, date := sampleDate, status := "Hadir",
         shift := some ("Pagi"), check_in := none, check_out := none }] []
      { id := 1, username := "staff", role := "STAFF",
        full_name := "Staff Member" }).2 20 (by decide) rfl).1⟩

/-- A sample stored check-out instant, 16:45:00 on `sampleDate`. -/
def sampleOut1645 : StoredDT :=
  StoredDT.aware { date := sampleDate, tod := 16 * 3600 + 45 * 60 }

/-- A sample export row: employee 1's Pagi record on `sampleDate`, checked
in at 10:14 and out at 16:45 (both aware). -/
def sampleOutRow : AttRow :=
  { user_id := 1, date := sampleDate, status := "Hadir", shift := some ("Pagi"),
    check_in := some (StoredDT.aware sampleNow),
    check_out := some sampleOut1645 }

/-- The same record with a 15:59 check-out, at or before departure. -/
def sampleEarlyRow : AttRow :=
  { sampleOutRow with
    check_out := some (StoredDT.aware { date := sampleDate, tod := 15 * 3600 + 59 * 60 }) }

/-- C9. Report C has one row per attendance record with a check-out and a
known shift — independent of the overtime flag, which is not even carried
into the export frame — and the overtime column is the zero-padded HH:MM
of the time past the shift's official departure when the check-out is
strictly later, else the empty string; concretely, for Pagi (departure
16:00) a 16:45 check-out gives "00:45" (45 minutes of potential overtime)
and a 15:59 check-out gives "" (0 minutes). -/
theorem C9_reportC_overtime (atts : List Attendance) (r : AttRow) :
    (reportC atts = (atts.map toAttRow).filterMap reportCRowFor) ∧
    (∀ (a : Attendance) (b : Bool), toAttRow { a with is_overtime := b } = toAttRow a) ∧
    ((reportCRowFor r).isSome = true ↔
       r.check_out.isSome = true ∧
       ∃ (sname : String) (rule : ShiftRule),
         r.shift = some sname ∧ shiftLookup (some sname) = some rule) ∧
    (∀ (cout : StoredDT) (sname : String) (rule : ShiftRule),
       r.check_out = some cout → r.shift = some sname →
       shiftLookup (some sname) = some rule →
       ∃ row : ReportCRow, reportCRowFor r = some row ∧
         row.waktu_lembur =
           (if (opsPulangOn r.date rule).wallSeconds < cout.wall.wallSeconds then
              pad2 (((cout.wall.wallSeconds -
                        (opsPulangOn r.date rule).wallSeconds).toNat) / 3600) ++ ":" ++
              pad2 (((cout.wall.wallSeconds -
                        (opsPulangOn r.date rule).wallSeconds).toNat) % 3600 / 60)
            else "")) ∧
    (Option.map ReportCRow.waktu_lembur (reportCRowFor sampleOutRow) = some ("00:45") ∧
     potential_overtime (some { date := sampleDate, tod := 16 * 3600 + 45 * 60 })
       (some ("Pagi")) = 45 ∧
     Option.map ReportCRow.waktu_lembur (reportCRowFor sampleEarlyRow) = some ("") ∧
     potential_overtime (some { date := sampleDate, tod := 15 * 3600 + 59 * 60 })
       (some ("Pagi")) = 0) := by
  refine ⟨rfl, ?_, ?_, ?_, by decide, by decide, by decide, by decide⟩
  · intro a b
    rfl
  · cases hco : r.check_out with
    | none => simp [reportCRowFor, hco]
    | some cout =>
        cases hsh : r.shift with
        | none => simp [reportCRowFor, hco, hsh]
        | some sname =>
            by_cases hs : sname = ""
            · subst hs
              have hlk : shiftLookup (some ("")) = none := by decide
              simp [reportCRowFor, hco, hsh, hlk]
            · cases hlk : shiftLookup (some sname) with
              | none => simp [reportCRowFor, hco, hsh, hs, hlk]
              | some rule => simp [reportCRowFor, hco, hsh, hs, hlk]
  · intro cout sname rule hco hsh hlk
    have hs : ¬ sname = "" := by
      intro he
      rw [he] at hlk
      have hn : shiftLookup (some ("")) = none := by decide
      rw [hn] at hlk
      exact Option.noConfusion hlk
    exact ⟨reportCRowMk r cout sname rule,
           by simp [reportCRowFor, hco, hsh, hs, hlk], rfl⟩

/-- Witness for C9: the 16:45 Pagi check-out row exists and its overtime
column follows the formula, which evaluates to "00:45". -/
theorem C9_reportC_overtime_witness :
    sampleOutRow.check_out = some sampleOut1645 ∧
    sampleOutRow.shift = some ("Pagi") ∧
    shiftLookup (some ("Pagi")) = some pagiRule ∧
    (∃ row : ReportCRow, reportCRowFor sampleOutRow = some row ∧
       row.waktu_lembur =
         (if (opsPulangOn sampleOutRow.date pagiRule).wallSeconds <
               sampleOut1645.wall.wallSeconds then
            pad2 (((sampleOut1645.wall.wallSeconds -
                      (opsPulangOn sampleOutRow.date pagiRule).wallSeconds).toNat) / 3600) ++
              ":" ++
            pad2 (((sampleOut1645.wall.wallSeconds -
                      (opsPulangOn sampleOutRow.date pagiRule).wallSeconds).toNat) % 3600 / 60)
          else "")) :=
  ⟨rfl, rfl, by decide,
   (C9_reportC_overtime [] sampleOutRow).2.2.2.1
     sampleOut1645 "Pagi" pagiRule rfl rfl (by decide)⟩
